import Mathlib

/-!
Shallow embedding of the Zotero library synchronization core
(`libraries.ts`): the data model (`LibraryVersions`, `LibraryData`,
`LibrarySyncActions`, `SyncActions`), the delta planner
(`librarySyncActions`), the replica merger (`librarySync` / `syncObjects`)
and the change-detection helper (`hasLibrarySyncActions`), together with
theorems settling the specified properties.

TypeScript `async` calls to the remote API are modelled by an oracle
record `ZoteroApi` of pure response functions; truthiness of the optional
`version` fields (`resp.version || fallback`, where the number `0` is
falsy) is modelled by `truthyOr`.
-/

namespace ZoteroSync

/-- Group metadata attached to a group library (fields beyond identity are
irrelevant to the sync core and elided to an id and name). -/
structure Group where
  id : Nat
  name : String
deriving DecidableEq, Repr

/-- `interface Library` from api.ts as used by libraries.ts: a library is a
user or group scope, with optional group metadata. -/
structure Library where
  type : String
  id : Nat
  group : Option Group
deriving DecidableEq, Repr

/-- `interface Collection`: remote entity with an opaque `key`; the
remaining payload is elided to `version` and `name` (used only in traces). -/
structure Collection where
  key : String
  version : Nat
  name : String
deriving DecidableEq, Repr

/-- The slice of an Item payload (`item.data`) the sync core inspects:
the truthiness of `item.data["deleted"]`, the self-deletion flag. -/
structure ItemData where
  deleted : Bool
deriving DecidableEq, Repr

/-- `interface Item`: remote entity with an opaque `key`, a `version` and
payload `data` carrying the self-deletion flag. -/
structure Item where
  key : String
  version : Nat
  data : ItemData
deriving DecidableEq, Repr

/-- `interface LibraryVersions`: the three independent version cursors. -/
structure LibraryVersions where
  collections : Nat
  items : Nat
  deleted : Nat
deriving DecidableEq, Repr

/-- `interface SyncActions<T>` from sync.ts as used by libraries.ts:
deleted keys plus the ordered sequence of updated entities. -/
structure SyncActions (T : Type) where
  deleted : List String
  updated : List T
deriving DecidableEq, Repr

/-- `interface LibrarySyncActions`: the plan produced by the delta
planner. -/
structure LibrarySyncActions where
  group : Option Group
  versions : LibraryVersions
  collections : SyncActions Collection
  items : SyncActions Item
deriving DecidableEq, Repr

/-- `interface LibraryData`: the merged local snapshot for one library. -/
structure LibraryData where
  group : Option Group
  versions : LibraryVersions
  collections : List Collection
  items : List Item
deriving DecidableEq, Repr

/-- The `deleted.data` part of a deletions response. -/
structure DeletedData where
  collections : List String
  items : List String
deriving DecidableEq, Repr

/-- Response of `zotero.deleted`: an optional version plus the deleted
collection and item keys. -/
structure DeletedResponse where
  version : Option Nat
  data : DeletedData
deriving DecidableEq, Repr

/-- Response of `zotero.collectionVersions` / `zotero.itemVersions`: an
optional version plus the key-to-version delta map (an association list;
the planner only ever takes its keys via `Object.keys`). -/
structure VersionsResponse where
  version : Option Nat
  data : List (String × Nat)
deriving DecidableEq, Repr

/-- The remote API collaborator for one fixed library, as an oracle of
pure response functions: `deleted`, `collectionVersions` and
`itemVersions` take the since-version cursor; `collections` and `items`
fetch full payloads for a list of keys. -/
structure ZoteroApi where
  deleted : Nat → Option DeletedResponse
  collectionVersions : Nat → Option VersionsResponse
  collections : List String → List Collection
  itemVersions : Nat → Option VersionsResponse
  items : List String → List Item

/-- JavaScript `v || fallback` on an optional number: `undefined` and the
falsy number `0` both select the fallback. -/
def truthyOr (v : Option Nat) (fallback : Nat) : Nat :=
  match v with
  | none => fallback
  | some n => if n = 0 then fallback else n

/-- The literal initializer of `syncActions` in `librarySyncActions`
(libraries.ts lines 56-71): zero cursors, `groupSync || undefined`, empty
action sets. -/
def initialSyncActions (groupSync : Option Group) : LibrarySyncActions :=
  { group := groupSync
    versions := { collections := 0, items := 0, deleted := 0 }
    collections := { deleted := [], updated := [] }
    items := { deleted := [], updated := [] } }

/-- The deletions block of `librarySyncActions` (lines 77-94): if the
response is present, set `versions.deleted` to
`deleted.version || syncActions.versions.deleted` and push every reported
collection and item key onto the respective `deleted` lists. -/
def applyDeleted (resp : Option DeletedResponse) (s : LibrarySyncActions) :
    LibrarySyncActions :=
  match resp with
  | none => s
  | some del =>
    { s with
      versions := { s.versions with deleted := truthyOr del.version s.versions.deleted }
      collections := { s.collections with deleted := s.collections.deleted ++ del.data.collections }
      items := { s.items with deleted := s.items.deleted ++ del.data.items } }

/-- The collections block of `librarySyncActions` (lines 97-107): if the
response is present, fetch the full payloads for the delta's keys, push
them onto `collections.updated`, and set `versions.collections` to
`collectionChanges.version || syncActions.versions.collections`. -/
def applyCollectionChanges (resp : Option VersionsResponse)
    (fetch : List String → List Collection) (s : LibrarySyncActions) :
    LibrarySyncActions :=
  match resp with
  | none => s
  | some collectionChanges =>
    let collections := fetch (collectionChanges.data.map Prod.fst)
    { s with
      collections := { s.collections with updated := s.collections.updated ++ collections }
      versions := { s.versions with collections := truthyOr collectionChanges.version s.versions.collections } }

/-- The per-item classification loop of `librarySyncActions`
(lines 114-123): an item whose payload carries the self-deletion flag has
its key pushed onto `items.deleted`; otherwise the item is pushed onto
`items.updated`. -/
def classifyItems : List Item → SyncActions Item → SyncActions Item
  | [], s => s
  | item :: rest, s =>
    if item.data.deleted then
      classifyItems rest { s with deleted := s.deleted ++ [item.key] }
    else
      classifyItems rest { s with updated := s.updated ++ [item] }

/-- The items block of `librarySyncActions` (lines 110-126): if the
response is present, fetch the full payloads for the delta's keys,
classify each into `items.deleted` or `items.updated`, and set
`versions.items` to `itemChanges.version || syncActions.versions.items`. -/
def applyItemChanges (resp : Option VersionsResponse)
    (fetch : List String → List Item) (s : LibrarySyncActions) :
    LibrarySyncActions :=
  match resp with
  | none => s
  | some itemChanges =>
    let items := fetch (itemChanges.data.map Prod.fst)
    let s := { s with items := classifyItems items s.items }
    { s with versions := { s.versions with items := truthyOr itemChanges.version s.versions.items } }

/-- `librarySyncActions` (libraries.ts lines 46-129), the delta planner:
starting from the literal initializer, apply the deletions block, the
collections block and the items block, each driven by the remote response
for the stored cursor read via `libraryReadVersions`. -/
def librarySyncActions (groupSync : Option Group) (versions : LibraryVersions)
    (zotero : ZoteroApi) : LibrarySyncActions :=
  applyItemChanges (zotero.itemVersions versions.items) zotero.items
    (applyCollectionChanges (zotero.collectionVersions versions.collections) zotero.collections
      (applyDeleted (zotero.deleted versions.deleted) (initialSyncActions groupSync)))

/-- `syncObjects` (libraries.ts lines 156-168): drop entries whose key is
in `deleted`, drop entries whose key is among the updated keys, then append
all of `updated`. Generic over the entity type via its `key` projection. -/
def syncObjects {T : Type} (key : T → String) (objects : List T)
    (syncActions : SyncActions T) : List T :=
  let objects := objects.filter (fun obj => !(syncActions.deleted.contains (key obj)))
  let updatedIds := syncActions.updated.map key
  let objects := objects.filter (fun obj => !(updatedIds.contains (key obj)))
  objects ++ syncActions.updated

/-- `librarySync` (libraries.ts lines 131-146), the replica merger: the
local snapshot (collections and items read from the store) merged with the
plan; the snapshot's group is `syncActions.group || library.group` and its
versions are the plan's versions. -/
def librarySync (library : Library) (localCollections : List Collection)
    (localItems : List Item) (syncActions : LibrarySyncActions) : LibraryData :=
  { group := match syncActions.group with
      | some g => some g
      | none => library.group
    versions := syncActions.versions
    collections := syncObjects Collection.key localCollections syncActions.collections
    items := syncObjects Item.key localItems syncActions.items }

/-- `hasLibrarySyncActions` (libraries.ts lines 148-154), as the boolean
its truthy return value is used as. -/
def hasLibrarySyncActions (sync : LibrarySyncActions) : Bool :=
  sync.group.isSome ||
  decide (sync.collections.deleted.length > 0) ||
  decide (sync.collections.updated.length > 0) ||
  decide (sync.items.deleted.length > 0) ||
  decide (sync.items.updated.length > 0)

/-- `libraryList` (libraries.ts lines 41-44): the user's personal library
followed by one group library per group. -/
def libraryList (userID : Nat) (groups : List Group) : List Library :=
  ({ type := "user", id := userID, group := none } : Library) ::
    groups.map (fun group => { type := "group", id := group.id, group := some group })

/-- Keys of collections reported by the deletion feed (empty when the
response is absent). -/
def deletedCollectionKeys (resp : Option DeletedResponse) : List String :=
  match resp with
  | none => []
  | some del => del.data.collections

/-- Keys of items reported by the deletion feed (empty when the response
is absent). -/
def deletedItemKeys (resp : Option DeletedResponse) : List String :=
  match resp with
  | none => []
  | some del => del.data.items

/-- The collections the planner fetches for a collection-delta response
(none when the response is absent). -/
def fetchedCollections (fetch : List String → List Collection)
    (resp : Option VersionsResponse) : List Collection :=
  match resp with
  | none => []
  | some collectionChanges => fetch (collectionChanges.data.map Prod.fst)

/-- The items the planner fetches for an item-delta response (none when
the response is absent). -/
def fetchedItems (fetch : List String → List Item)
    (resp : Option VersionsResponse) : List Item :=
  match resp with
  | none => []
  | some itemChanges => fetch (itemChanges.data.map Prod.fst)

theorem classifyItems_deleted (l : List Item) (s : SyncActions Item) :
    (classifyItems l s).deleted =
      s.deleted ++ (l.filter (fun i => i.data.deleted)).map Item.key := by
  induction l generalizing s with
  | nil => simp [classifyItems]
  | cons item rest ih =>
    by_cases h : item.data.deleted
    · simp [classifyItems, h, ih]
    · simp [classifyItems, h, ih]

theorem classifyItems_updated (l : List Item) (s : SyncActions Item) :
    (classifyItems l s).updated =
      s.updated ++ l.filter (fun i => !i.data.deleted) := by
  induction l generalizing s with
  | nil => simp [classifyItems]
  | cons item rest ih =>
    by_cases h : item.data.deleted
    · simp [classifyItems, h, ih]
    · simp [classifyItems, h, ih]

theorem plan_group (g : Option Group) (v : LibraryVersions) (z : ZoteroApi) :
    (librarySyncActions g v z).group = g := by
  unfold librarySyncActions applyItemChanges applyCollectionChanges applyDeleted
  cases z.deleted v.deleted <;>
    cases z.collectionVersions v.collections <;>
      cases z.itemVersions v.items <;>
        simp [initialSyncActions]

theorem plan_versions_deleted (g : Option Group) (v : LibraryVersions) (z : ZoteroApi) :
    (librarySyncActions g v z).versions.deleted =
      truthyOr ((z.deleted v.deleted).bind DeletedResponse.version) 0 := by
  unfold librarySyncActions applyItemChanges applyCollectionChanges applyDeleted
  cases z.deleted v.deleted <;>
    cases z.collectionVersions v.collections <;>
      cases z.itemVersions v.items <;>
        simp [initialSyncActions, truthyOr]

theorem plan_versions_collections (g : Option Group) (v : LibraryVersions) (z : ZoteroApi) :
    (librarySyncActions g v z).versions.collections =
      truthyOr ((z.collectionVersions v.collections).bind VersionsResponse.version) 0 := by
  unfold librarySyncActions applyItemChanges applyCollectionChanges applyDeleted
  cases z.deleted v.deleted <;>
    cases z.collectionVersions v.collections <;>
      cases z.itemVersions v.items <;>
        simp [initialSyncActions, truthyOr]

theorem plan_versions_items (g : Option Group) (v : LibraryVersions) (z : ZoteroApi) :
    (librarySyncActions g v z).versions.items =
      truthyOr ((z.itemVersions v.items).bind VersionsResponse.version) 0 := by
  unfold librarySyncActions applyItemChanges applyCollectionChanges applyDeleted
  cases z.deleted v.deleted <;>
    cases z.collectionVersions v.collections <;>
      cases z.itemVersions v.items <;>
        simp [initialSyncActions, truthyOr]

theorem plan_collections_deleted (g : Option Group) (v : LibraryVersions) (z : ZoteroApi) :
    (librarySyncActions g v z).collections.deleted =
      deletedCollectionKeys (z.deleted v.deleted) := by
  unfold librarySyncActions applyItemChanges applyCollectionChanges applyDeleted
  cases z.deleted v.deleted <;>
    cases z.collectionVersions v.collections <;>
      cases z.itemVersions v.items <;>
        simp [initialSyncActions, deletedCollectionKeys]

theorem plan_collections_updated (g : Option Group) (v : LibraryVersions) (z : ZoteroApi) :
    (librarySyncActions g v z).collections.updated =
      fetchedCollections z.collections (z.collectionVersions v.collections) := by
  unfold librarySyncActions applyItemChanges applyCollectionChanges applyDeleted
  cases z.deleted v.deleted <;>
    cases z.collectionVersions v.collections <;>
      cases z.itemVersions v.items <;>
        simp [initialSyncActions, fetchedCollections]

theorem plan_items_deleted (g : Option Group) (v : LibraryVersions) (z : ZoteroApi) :
    (librarySyncActions g v z).items.deleted =
      deletedItemKeys (z.deleted v.deleted) ++
        ((fetchedItems z.items (z.itemVersions v.items)).filter
          (fun i => i.data.deleted)).map Item.key := by
  unfold librarySyncActions applyItemChanges applyCollectionChanges applyDeleted
  cases z.deleted v.deleted <;>
    cases z.collectionVersions v.collections <;>
      cases z.itemVersions v.items <;>
        simp [initialSyncActions, deletedItemKeys, fetchedItems, classifyItems_deleted]

theorem plan_items_updated (g : Option Group) (v : LibraryVersions) (z : ZoteroApi) :
    (librarySyncActions g v z).items.updated =
      (fetchedItems z.items (z.itemVersions v.items)).filter
        (fun i => !i.data.deleted) := by
  unfold librarySyncActions applyItemChanges applyCollectionChanges applyDeleted
  cases z.deleted v.deleted <;>
    cases z.collectionVersions v.collections <;>
      cases z.itemVersions v.items <;>
        simp [initialSyncActions, fetchedItems, classifyItems_updated]

theorem syncObjects_eq {T : Type} (key : T → String) (objects : List T)
    (sa : SyncActions T) :
    syncObjects key objects sa =
      objects.filter (fun obj =>
        !(sa.deleted.contains (key obj)) && !((sa.updated.map key).contains (key obj)))
        ++ sa.updated := by
  simp only [syncObjects, List.filter_filter]
  congr 1
  apply List.filter_congr
  intro a _
  exact Bool.and_comm _ _

theorem mem_filter_part {T : Type} (key : T → String) (objects : List T)
    (sa : SyncActions T) (o : T)
    (ho : o ∈ objects.filter (fun obj =>
      !(sa.deleted.contains (key obj)) && !((sa.updated.map key).contains (key obj)))) :
    o ∈ objects ∧ key o ∉ sa.deleted ∧ key o ∉ sa.updated.map key := by
  rcases List.mem_filter.mp ho with ⟨hmem, hcond⟩
  simp only [Bool.and_eq_true, Bool.not_eq_true', List.elem_eq_mem,
    decide_eq_false_iff_not] at hcond
  exact ⟨hmem, hcond.1, hcond.2⟩

theorem syncObjects_idem {T : Type} (key : T → String) (objects : List T)
    (sa : SyncActions T) :
    syncObjects key (syncObjects key objects sa) sa = syncObjects key objects sa := by
  rw [syncObjects_eq, syncObjects_eq]
  congr 1
  rw [List.filter_append]
  have hU : sa.updated.filter (fun obj =>
      !(sa.deleted.contains (key obj)) && !((sa.updated.map key).contains (key obj))) = [] := by
    apply List.filter_eq_nil_iff.mpr
    intro u hu
    simp only [Bool.and_eq_true, Bool.not_eq_true', List.elem_eq_mem,
      decide_eq_false_iff_not, not_and]
    intro _
    exact fun habs => habs (List.mem_map_of_mem key hu)
  rw [hU, List.append_nil]
  apply List.filter_eq_self.mpr
  intro a ha
  rcases List.mem_filter.mp ha with ⟨_, hcond⟩
  exact hcond

theorem syncObjects_map_key_nodup {T : Type} (key : T → String) (objects : List T)
    (sa : SyncActions T) (hobj : (objects.map key).Nodup)
    (hupd : (sa.updated.map key).Nodup) :
    ((syncObjects key objects sa).map key).Nodup := by
  rw [syncObjects_eq, List.map_append]
  rw [List.nodup_append]
  refine ⟨?_, hupd, ?_⟩
  · exact hobj.sublist (List.Sublist.map key (List.filter_sublist _))
  · intro k hk
    rcases List.mem_map.mp hk with ⟨o, ho, rfl⟩
    exact (mem_filter_part key objects sa o ho).2.2

/-- A user library with no group metadata. -/
def libUser : Library := { type := "user", id := 1, group := none }

/-- Remote oracle answering every query with the no-changes sentinel. -/
def apiAllAbsent : ZoteroApi :=
  { deleted := fun _ => none
    collectionVersions := fun _ => none
    collections := fun _ => []
    itemVersions := fun _ => none
    items := fun _ => [] }

/-- Remote oracle answering every query with a present response that omits
its version number and reports no changed keys. -/
def apiVersionless : ZoteroApi :=
  { deleted := fun _ => some { version := none, data := { collections := [], items := [] } }
    collectionVersions := fun _ => some { version := none, data := [] }
    collections := fun _ => []
    itemVersions := fun _ => some { version := none, data := [] }
    items := fun _ => [] }

/-- Claim C1 (code bug): with stored cursors (5, 6, 7), the plan's
nextVersions are (0, 0, 0) — not the stored values — both when every
remote response is absent and when every response is present but omits its
version number.  The planner initializes the plan cursors to zero and the
fallback in `resp.version || syncActions.versions.x` preserves that zero,
never the stored cursor read via `libraryReadVersions`. -/
theorem claim_C1_stored_cursor_dropped :
    (librarySyncActions none ⟨5, 6, 7⟩ apiAllAbsent).versions = ⟨0, 0, 0⟩ ∧
    (librarySyncActions none ⟨5, 6, 7⟩ apiVersionless).versions = ⟨0, 0, 0⟩ ∧
    (⟨0, 0, 0⟩ : LibraryVersions) ≠ ⟨5, 6, 7⟩ :=
  ⟨rfl, rfl, by decide⟩

/-- Remote oracle for the two-cycle monotonicity scenario: the deletion
feed reports version 10 on the first cycle (cursor 0) and is silent
afterwards, while the item feed always reports item I1 at version 7. -/
def apiTwoCycle : ZoteroApi :=
  { deleted := fun since =>
      if since = 0 then
        some { version := some 10, data := { collections := [], items := ["X1"] } }
      else none
    collectionVersions := fun _ => none
    collections := fun _ => []
    itemVersions := fun _ => some { version := some 7, data := [("I1", 7)] }
    items := fun _ => [{ key := "I1", version := 7, data := { deleted := false } }] }

/-- First-cycle plan of the monotonicity scenario, from all-zero cursors. -/
def c2plan1 : LibrarySyncActions := librarySyncActions none ⟨0, 0, 0⟩ apiTwoCycle

/-- First-cycle applied snapshot (empty local replica). -/
def c2snap1 : LibraryData := librarySync libUser [] [] c2plan1

/-- Second-cycle plan, read back from the first applied snapshot's
cursors. -/
def c2plan2 : LibrarySyncActions := librarySyncActions none c2snap1.versions apiTwoCycle

/-- Second-cycle applied snapshot. -/
def c2snap2 : LibraryData := librarySync libUser c2snap1.collections c2snap1.items c2plan2

/-- Claim C2 (code bug): over two successful plan-then-apply cycles — both
of which carry changes, so neither persistence write is skipped — the
applied snapshot's versions.deleted falls from 10 to 0, violating cursor
monotonicity.  The deletion feed is silent on the second cycle, so the
plan's deleted cursor stays at its zero initializer instead of the stored
10. -/
theorem claim_C2_monotonicity_violation :
    hasLibrarySyncActions c2plan1 = true ∧
    hasLibrarySyncActions c2plan2 = true ∧
    c2snap1.versions.deleted = 10 ∧
    c2snap2.versions.deleted = 0 ∧
    c2snap2.versions.deleted < c2snap1.versions.deleted := by
  refine ⟨rfl, rfl, rfl, rfl, ?_⟩
  decide

/-- Remote oracle reporting collection C1 both in the deletion feed and in
the collection-change feed. -/
def apiBothFeeds : ZoteroApi :=
  { deleted := fun _ =>
      some { version := some 2, data := { collections := ["C1"], items := [] } }
    collectionVersions := fun _ => some { version := some 2, data := [("C1", 2)] }
    collections := fun keys => keys.map (fun k => { key := k, version := 2, name := "n" })
    itemVersions := fun _ => none
    items := fun _ => [] }

/-- Claim C3 counterexample: for an entity reported by both the deletion
feed and the change feed, the planner lists its key in the collections
action set's deleted keys AND fetches it into updated — the claimed
invariant fails; nothing routes such a key to deletedKeys only. -/
theorem claim_C3_counterexample :
    "C1" ∈ (librarySyncActions none ⟨0, 0, 0⟩ apiBothFeeds).collections.deleted ∧
    "C1" ∈ (librarySyncActions none ⟨0, 0, 0⟩ apiBothFeeds).collections.updated.map
      Collection.key := by
  constructor <;> decide

/-- Claim C3 as amended: the planner performs no cross-feed
deduplication, so the invariant holds exactly when the remote feeds are
disjoint: if the deletion feed's collection keys avoid the fetched
collections' keys, the deletion feed's item keys avoid the fetched
non-self-deleted items' keys, and no key is shared between self-deleted
and non-self-deleted fetched items, then no key of either action set
occurs both in its deleted keys and among its updated entries' keys. -/
theorem claim_C3_no_cross_listing (g : Option Group) (v : LibraryVersions)
    (z : ZoteroApi)
    (hc : ∀ k, k ∈ deletedCollectionKeys (z.deleted v.deleted) →
      k ∉ (fetchedCollections z.collections (z.collectionVersions v.collections)).map
        Collection.key)
    (hi : ∀ k, k ∈ deletedItemKeys (z.deleted v.deleted) →
      k ∉ ((fetchedItems z.items (z.itemVersions v.items)).filter
        (fun i => !i.data.deleted)).map Item.key)
    (hii : ∀ k, k ∈ ((fetchedItems z.items (z.itemVersions v.items)).filter
        (fun i => i.data.deleted)).map Item.key →
      k ∉ ((fetchedItems z.items (z.itemVersions v.items)).filter
        (fun i => !i.data.deleted)).map Item.key) :
    (∀ k, k ∈ (librarySyncActions g v z).collections.deleted →
      k ∉ (librarySyncActions g v z).collections.updated.map Collection.key) ∧
    (∀ k, k ∈ (librarySyncActions g v z).items.deleted →
      k ∉ (librarySyncActions g v z).items.updated.map Item.key) := by
  constructor
  · intro k hk
    rw [plan_collections_updated]
    rw [plan_collections_deleted] at hk
    exact hc k hk
  · intro k hk
    rw [plan_items_updated]
    rw [plan_items_deleted] at hk
    rcases List.mem_append.mp hk with h | h
    · exact hi k h
    · exact hii k h

/-- Remote oracle with non-empty but disjoint feeds: the deletion feed
removes collection D1 and item D2, the change feeds fetch collection C1,
the non-self-deleted item I1 and the self-deleted item I2. -/
def apiDisjointFeeds : ZoteroApi :=
  { deleted := fun _ =>
      some { version := some 2, data := { collections := ["D1"], items := ["D2"] } }
    collectionVersions := fun _ => some { version := some 2, data := [("C1", 2)] }
    collections := fun keys => keys.map (fun k => { key := k, version := 2, name := "n" })
    itemVersions := fun _ => some { version := some 3, data := [("I1", 3), ("I2", 3)] }
    items := fun _ =>
      [{ key := "I1", version := 3, data := { deleted := false } },
       { key := "I2", version := 3, data := { deleted := true } }] }

/-- Witness for the amended claim C3 at the disjoint-feed oracle, where
every hypothesis is exercised on a non-empty feed (the plan's action sets
end up with deleted keys D1 and D2, I2 and updated entries C1 and I1). -/
theorem claim_C3_no_cross_listing_witness :
    (∀ k, k ∈ (librarySyncActions none ⟨0, 0, 0⟩ apiDisjointFeeds).collections.deleted →
      k ∉ (librarySyncActions none ⟨0, 0, 0⟩ apiDisjointFeeds).collections.updated.map
        Collection.key) ∧
    (∀ k, k ∈ (librarySyncActions none ⟨0, 0, 0⟩ apiDisjointFeeds).items.deleted →
      k ∉ (librarySyncActions none ⟨0, 0, 0⟩ apiDisjointFeeds).items.updated.map
        Item.key) :=
  claim_C3_no_cross_listing none ⟨0, 0, 0⟩ apiDisjointFeeds
    (by
      intro k hk
      simp only [deletedCollectionKeys, apiDisjointFeeds, List.mem_singleton] at hk
      subst hk
      decide)
    (by
      intro k hk
      simp only [deletedItemKeys, apiDisjointFeeds, List.mem_singleton] at hk
      subst hk
      decide)
    (by
      intro k hk
      simp only [fetchedItems, apiDisjointFeeds] at hk
      simp at hk
      subst hk
      decide)

/-- Claim C4: merge is idempotent — re-applying a plan to its own merged
output leaves both the collections and the items sequences unchanged,
for every snapshot and plan. -/
theorem claim_C4_merge_idempotent (library : Library)
    (localCollections : List Collection) (localItems : List Item)
    (plan : LibrarySyncActions) :
    (librarySync library
        (librarySync library localCollections localItems plan).collections
        (librarySync library localCollections localItems plan).items
        plan).collections =
      (librarySync library localCollections localItems plan).collections ∧
    (librarySync library
        (librarySync library localCollections localItems plan).collections
        (librarySync library localCollections localItems plan).items
        plan).items =
      (librarySync library localCollections localItems plan).items := by
  constructor <;> simp [librarySync, syncObjects_idem]

/-- Claim C5 counterexample: a snapshot that already contains the key X
twice passes through an all-empty plan unchanged, so the merged
collections sequence still lists X twice — the no-duplication property
fails for arbitrary input snapshots. -/
theorem claim_C5_counterexample :
    ¬ (((librarySync libUser
        [{ key := "X", version := 1, name := "a" },
         { key := "X", version := 2, name := "b" }]
        [] (initialSyncActions none)).collections.map Collection.key).Nodup) := by
  decide

/-- Claim C5 as amended: whenever the input snapshot's collections and
items have pairwise-distinct keys and the plan's updated sequences have
pairwise-distinct keys, every key appears at most once across the merged
collections sequence and at most once across the merged items sequence. -/
theorem claim_C5_no_duplication (library : Library) (lc : List Collection)
    (li : List Item) (plan : LibrarySyncActions)
    (hc : (lc.map Collection.key).Nodup)
    (hcu : (plan.collections.updated.map Collection.key).Nodup)
    (hi : (li.map Item.key).Nodup)
    (hiu : (plan.items.updated.map Item.key).Nodup) :
    ((librarySync library lc li plan).collections.map Collection.key).Nodup ∧
    ((librarySync library lc li plan).items.map Item.key).Nodup := by
  constructor
  · simpa [librarySync] using
      syncObjects_map_key_nodup Collection.key lc plan.collections hc hcu
  · simpa [librarySync] using
      syncObjects_map_key_nodup Item.key li plan.items hi hiu

/-- An update-only plan touching collection B and item J9, used as the
no-duplication witness. -/
def planUpdateOnly : LibrarySyncActions :=
  { group := none
    versions := { collections := 3, items := 4, deleted := 0 }
    collections := { deleted := [],
                     updated := [{ key := "B", version := 3, name := "b" }] }
    items := { deleted := [],
               updated := [{ key := "J9", version := 4, data := { deleted := false } }] } }

/-- Witness for the amended claim C5 on a concrete duplicate-free
snapshot and plan. -/
theorem claim_C5_no_duplication_witness :
    ((librarySync libUser
        [{ key := "A", version := 1, name := "a" }]
        [{ key := "J9", version := 1, data := { deleted := false } }]
        planUpdateOnly).collections.map Collection.key).Nodup ∧
    ((librarySync libUser
        [{ key := "A", version := 1, name := "a" }]
        [{ key := "J9", version := 1, data := { deleted := false } }]
        planUpdateOnly).items.map Item.key).Nodup :=
  claim_C5_no_duplication libUser _ _ planUpdateOnly
    (by decide) (by decide) (by decide) (by decide)

/-- Claim C6: for every input sequence and action set, the merged
sequence is exactly the input entries whose key is in neither the deleted
keys nor the updated entries' keys — kept in their original relative
order by a stable filter — followed by the whole updated sequence
appended at the end; an all-empty action set leaves the input unchanged. -/
theorem claim_C6_merge_shape {T : Type} (key : T → String) (objects : List T)
    (sa : SyncActions T) :
    (syncObjects key objects sa =
      objects.filter (fun obj =>
        decide (key obj ∉ sa.deleted ∧ key obj ∉ sa.updated.map key)) ++ sa.updated) ∧
    syncObjects key objects { deleted := [], updated := [] } = objects := by
  constructor
  · rw [syncObjects_eq]
    congr 1
    apply List.filter_congr
    intro a _
    simp only [List.elem_eq_mem]
    by_cases hd : key a ∈ sa.deleted <;>
      by_cases hu : key a ∈ sa.updated.map key <;> simp [hd, hu]
  · simp [syncObjects]

/-- Claim C7: every item fetched during the item-change query whose
payload carries the self-deletion flag gets its key added to the plan's
items.deleted and is itself never added to items.updated, while a fetched
item without the flag is added to items.updated. -/
theorem claim_C7_item_classification (g : Option Group) (v : LibraryVersions)
    (z : ZoteroApi) (itemChanges : VersionsResponse)
    (hresp : z.itemVersions v.items = some itemChanges)
    (item : Item) (hmem : item ∈ z.items (itemChanges.data.map Prod.fst)) :
    (item.data.deleted = true →
      item.key ∈ (librarySyncActions g v z).items.deleted ∧
      item ∉ (librarySyncActions g v z).items.updated) ∧
    (item.data.deleted = false →
      item ∈ (librarySyncActions g v z).items.updated) := by
  have hfetched : fetchedItems z.items (z.itemVersions v.items) =
      z.items (itemChanges.data.map Prod.fst) := by
    rw [hresp]
    rfl
  constructor
  · intro hdel
    constructor
    · rw [plan_items_deleted]
      apply List.mem_append_right
      apply List.mem_map_of_mem Item.key
      rw [hfetched]
      exact List.mem_filter.mpr ⟨hmem, by simp [hdel]⟩
    · rw [plan_items_updated, hfetched]
      intro habs
      have hflag := (List.mem_filter.mp habs).2
      rw [hdel] at hflag
      simp at hflag
  · intro hdel
    rw [plan_items_updated, hfetched]
    exact List.mem_filter.mpr ⟨hmem, by simp [hdel]⟩

/-- Remote oracle whose item-change feed reports two items: I3 fetched
with the self-deletion flag set, I4 fetched without it. -/
def apiItemFlag : ZoteroApi :=
  { deleted := fun _ => none
    collectionVersions := fun _ => none
    collections := fun _ => []
    itemVersions := fun _ => some { version := some 3, data := [("I3", 3), ("I4", 3)] }
    items := fun _ =>
      [{ key := "I3", version := 3, data := { deleted := true } },
       { key := "I4", version := 3, data := { deleted := false } }] }

/-- Witness for claim C7: the flagged fetched item I3 lands in the plan's
deleted keys and not among its updated items. -/
theorem claim_C7_item_classification_witness :
    ({ key := "I3", version := 3, data := { deleted := true } } : Item).key ∈
      (librarySyncActions none ⟨0, 0, 0⟩ apiItemFlag).items.deleted ∧
    ({ key := "I3", version := 3, data := { deleted := true } } : Item) ∉
      (librarySyncActions none ⟨0, 0, 0⟩ apiItemFlag).items.updated :=
  (claim_C7_item_classification none ⟨0, 0, 0⟩ apiItemFlag
    { version := some 3, data := [("I3", 3), ("I4", 3)] } rfl
    { key := "I3", version := 3, data := { deleted := true } } (by decide)).1 rfl

/-- Claim C8: the merged snapshot's group metadata is the plan's group
metadata when present, and otherwise the group metadata held for the
library being merged; the two cases are exhaustive over the optional
field and no other value is ever produced. -/
theorem claim_C8_group_metadata (library : Library) (lc : List Collection)
    (li : List Item) (plan : LibrarySyncActions) (g : Group) :
    (librarySync library lc li { plan with group := some g }).group = some g ∧
    (librarySync library lc li { plan with group := none }).group = library.group := by
  constructor <;> simp [librarySync]

/-- Claim C9: hasLibrarySyncActions is false exactly when the plan's
group metadata is absent and all four deleted/updated lists of both
action sets are empty; being boolean, it is true in every other case. -/
theorem claim_C9_hasChanges (sync : LibrarySyncActions) :
    hasLibrarySyncActions sync = false ↔
      sync.group = none ∧
      sync.collections.deleted = [] ∧ sync.collections.updated = [] ∧
      sync.items.deleted = [] ∧ sync.items.updated = [] := by
  simp [hasLibrarySyncActions, and_assoc]

/-- Claim C10: an entry of an action set's updated sequence survives the
merge even when its key is simultaneously listed in the same action set's
deleted keys: deletions only filter the pre-existing entries, after which
the whole updated sequence is appended, so the merged sequence still
contains the updated entry and ends with the updated sequence. -/
theorem claim_C10_update_survives {T : Type} (key : T → String)
    (objects : List T) (sa : SyncActions T) (u : T)
    (hu : u ∈ sa.updated) (_hd : key u ∈ sa.deleted) :
    u ∈ syncObjects key objects sa ∧
    ∃ pre, syncObjects key objects sa = pre ++ sa.updated := by
  refine ⟨?_, _, syncObjects_eq key objects sa⟩
  rw [syncObjects_eq]
  exact List.mem_append_right _ hu

/-- Witness for claim C10: item key K is both deleted and updated in the
same action set, and the updated entry survives the merge. -/
theorem claim_C10_update_survives_witness :
    ({ key := "K", version := 1, data := { deleted := false } } : Item) ∈
      syncObjects Item.key
        [{ key := "K", version := 0, data := { deleted := false } }]
        { deleted := ["K"],
          updated := [{ key := "K", version := 1, data := { deleted := false } }] } ∧
    ∃ pre, syncObjects Item.key
        [{ key := "K", version := 0, data := { deleted := false } }]
        { deleted := ["K"],
          updated := [{ key := "K", version := 1, data := { deleted := false } }] } =
      pre ++ [{ key := "K", version := 1, data := { deleted := false } }] :=
  claim_C10_update_survives Item.key
    [{ key := "K", version := 0, data := { deleted := false } }]
    { deleted := ["K"],
      updated := [{ key := "K", version := 1, data := { deleted := false } }] }
    { key := "K", version := 1, data := { deleted := false } }
    (by decide) (by decide)

end ZoteroSync
